import Mathlib

/-!
Verification of the `megaplan` client module (src/megaplan/megaplan.py).

The Python source is shallowly embedded below.  Python byte strings are
modelled as Lean `String`s whose characters carry the byte values
(`strBytes` extracts the byte list); machine words are `Nat` with explicit
`% 2 ^ 32` reductions; Python exceptions are an explicit `PyErr` error type
threaded through `Except`; the mutable `self` of the `Client` class is
threaded explicitly (each method returns the updated `Client`).

External collaborators are embedded as follows:
* the clock (`time.strftime(..., time.gmtime())`) is an input: every
  operation that constructs a `Request` receives the formatted date string;
* the transport plus JSON codec (`urllib2.urlopen` followed by
  `simplejson.loads`) is a function `WireRequest → Except PyErr Json`
  supplied by the caller; every wire request handed to it is also returned
  in a log list, so theorems can state how often the transport was used;
* `hashlib.sha1`, `hashlib.md5`, `hmac`, `base64.b64encode` and
  `urllib.urlencode` are implemented here in full, following their
  standard definitions (FIPS 180-1, RFC 1321, RFC 2104, RFC 4648, and
  CPython 2's `urllib.quote_plus`).
-/

/-! ## Bytes -/

/-- The byte values of a Python 2 byte string (characters are code points;
for the ASCII data handled by this client they coincide with bytes). -/
def strBytes (s : String) : List Nat := s.data.map Char.toNat

/-! ## Lowercase hexadecimal rendering (`hexdigest`) -/

/-- Lowercase hexadecimal digit, as produced by Python's `hexdigest`. -/
def hexDigitChar (n : Nat) : Char :=
  if n < 10 then Char.ofNat (48 + n) else Char.ofNat (87 + n)

/-- Two lowercase hex characters of one byte. -/
def byteHex (b : Nat) : List Char := [hexDigitChar (b / 16), hexDigitChar (b % 16)]

/-- Lowercase hexadecimal string of a byte list (`hexdigest`). -/
def bytesToHex (l : List Nat) : String :=
  String.mk (l.foldr (fun b acc => byteHex b ++ acc) [])

/-! ## Base64 (`base64.b64encode`, RFC 4648) -/

/-- The base64 alphabet. -/
def b64Alphabet : List Char :=
  "ABCDEFGHIJKLMNOPQRSTUVWXYZabcdefghijklmnopqrstuvwxyz0123456789+/".data

/-- Character for one 6-bit group. -/
def b64Char (n : Nat) : Char := b64Alphabet.getD n 'A'

/-- Base64 encoding of a byte list, three bytes to four characters, with
`=` padding.  Bit extraction is written with `/` and `%` (the groups are
bit-disjoint, so `+` agrees with bitwise or). -/
def b64encodeCore : List Nat → List Char
  | [] => []
  | [b1] => [b64Char (b1 / 4), b64Char (b1 % 4 * 16), '=', '=']
  | [b1, b2] => [b64Char (b1 / 4), b64Char (b1 % 4 * 16 + b2 / 16), b64Char (b2 % 16 * 4), '=']
  | b1 :: b2 :: b3 :: rest =>
      b64Char (b1 / 4) :: b64Char (b1 % 4 * 16 + b2 / 16) ::
      b64Char (b2 % 16 * 4 + b3 / 64) :: b64Char (b3 % 64) :: b64encodeCore rest

/-- `base64.b64encode` on a byte list, as a string. -/
def b64encode (l : List Nat) : String := String.mk (b64encodeCore l)

/-! ## Form encoding (`urllib.urlencode`, CPython 2) -/

/-- CPython 2 `urllib.always_safe` membership: ASCII letters, digits,
and `_`, `.`, `-`. -/
def urlSafeChar (c : Char) : Bool :=
  ('A' ≤ c && c ≤ 'Z') || ('a' ≤ c && c ≤ 'z') || ('0' ≤ c && c ≤ '9') ||
  c = '_' || c = '.' || c = '-'

/-- Uppercase hexadecimal digit, used by `urllib.quote`'s `%XX` escapes. -/
def hexDigitCharUpper (n : Nat) : Char :=
  if n < 10 then Char.ofNat (48 + n) else Char.ofNat (55 + n)

/-- `urllib.quote_plus` on one character: safe characters pass through,
space becomes `+`, anything else becomes `%XX` with uppercase hex. -/
def quotePlusChar (c : Char) : List Char :=
  if urlSafeChar c then [c]
  else if c = ' ' then ['+']
  else ['%', hexDigitCharUpper (c.toNat / 16 % 16), hexDigitCharUpper (c.toNat % 16)]

/-- `urllib.quote_plus` on a string. -/
def quotePlus (s : String) : String :=
  String.mk (s.data.foldr (fun c acc => quotePlusChar c ++ acc) [])

/-- `urllib.urlencode`: `key=value` pairs joined by `&`, both sides
quoted with `quote_plus`. -/
def urlencode (l : List (String × String)) : String :=
  String.intercalate "&" (l.map fun p => quotePlus p.1 ++ "=" ++ quotePlus p.2)

/-! ## SHA-1 (FIPS 180-1) -/

/-- Left rotation of a 32-bit word, via `/` and `%` (for `w < 2 ^ 32` this
is the standard bitwise rotation). -/
def rotl32 (n w : Nat) : Nat := w % 2 ^ (32 - n) * 2 ^ n + w / 2 ^ (32 - n)

/-- Bitwise complement of a 32-bit word. -/
def not32 (w : Nat) : Nat := 2 ^ 32 - 1 - w % 2 ^ 32

/-- Big-endian 32-bit words of a byte list (length a multiple of 4). -/
def bytesToWordsBE : List Nat → List Nat
  | b1 :: b2 :: b3 :: b4 :: rest => (((b1 * 256 + b2) * 256 + b3) * 256 + b4) :: bytesToWordsBE rest
  | _ => []

/-- Big-endian bytes of one 32-bit word. -/
def wordBytesBE (w : Nat) : List Nat := [w / 2 ^ 24 % 256, w / 2 ^ 16 % 256, w / 2 ^ 8 % 256, w % 256]

/-- Big-endian bytes of a 64-bit length field. -/
def lenBytesBE (n : Nat) : List Nat :=
  [n / 2 ^ 56 % 256, n / 2 ^ 48 % 256, n / 2 ^ 40 % 256, n / 2 ^ 32 % 256,
   n / 2 ^ 24 % 256, n / 2 ^ 16 % 256, n / 2 ^ 8 % 256, n % 256]

/-- Merkle–Damgård padding: `0x80`, zeros to 56 mod 64, then the bit
length on 8 bytes (big-endian for SHA-1). -/
def sha1Pad (msg : List Nat) : List Nat :=
  msg ++ 128 :: List.replicate ((119 - msg.length % 64) % 64) 0 ++ lenBytesBE (msg.length * 8)

/-- Split a byte list into 64-byte blocks.  The fuel argument of the
worker (structural recursion, so the definition reduces in the kernel)
is bounded by the list length, which shrinks by 64 every step. -/
def chunks64Go : Nat → List Nat → List (List Nat)
  | 0, _ => []
  | _ + 1, [] => []
  | fuel + 1, l@(_ :: _) => l.take 64 :: chunks64Go fuel (l.drop 64)

/-- Split a byte list into 64-byte blocks. -/
def chunks64 (l : List Nat) : List (List Nat) := chunks64Go l.length l

/-- SHA-1 message schedule: 80 words, the first 16 from the block, the
rest `rotl1` of the xor of four earlier words.  The accumulator holds the
words most recent first. -/
def sha1Schedule (w16 : List Nat) : List Nat :=
  ((List.range 80).foldl
    (fun acc i =>
      (if i < 16 then w16.getD i 0
       else rotl32 1 ((((acc.getD 2 0).xor (acc.getD 7 0)).xor (acc.getD 13 0)).xor (acc.getD 15 0)))
      :: acc)
    []).reverse

/-- SHA-1 round function and constant for round `i`. -/
def sha1F (i b c d : Nat) : Nat :=
  if i < 20 then (b.land c).lor ((not32 b).land d)
  else if i < 40 then (b.xor c).xor d
  else if i < 60 then ((b.land c).lor (b.land d)).lor (c.land d)
  else (b.xor c).xor d

/-- SHA-1 round constant for round `i`. -/
def sha1K (i : Nat) : Nat :=
  if i < 20 then 0x5A827999
  else if i < 40 then 0x6ED9EBA1
  else if i < 60 then 0x8F1BBCDC
  else 0xCA62C1D6

/-- One SHA-1 block compression. -/
def sha1Block (h : Nat × Nat × Nat × Nat × Nat) (block : List Nat) : Nat × Nat × Nat × Nat × Nat :=
  let w := sha1Schedule (bytesToWordsBE block)
  let (h0, h1, h2, h3, h4) := h
  let s := (List.range 80).foldl
    (fun (st : Nat × Nat × Nat × Nat × Nat) i =>
      let (a, b, c, d, e) := st
      let temp := (rotl32 5 a + sha1F i b c d + e + sha1K i + w.getD i 0) % 2 ^ 32
      (temp, a, rotl32 30 b, c, d))
    (h0, h1, h2, h3, h4)
  ((h0 + s.1) % 2 ^ 32, (h1 + s.2.1) % 2 ^ 32, (h2 + s.2.2.1) % 2 ^ 32,
   (h3 + s.2.2.2.1) % 2 ^ 32, (h4 + s.2.2.2.2) % 2 ^ 32)

/-- SHA-1 digest of a byte list, as 20 bytes. -/
def sha1Bytes (msg : List Nat) : List Nat :=
  let f := (chunks64 (sha1Pad msg)).foldl sha1Block
    (0x67452301, 0xEFCDAB89, 0x98BADCFE, 0x10325476, 0xC3D2E1F0)
  wordBytesBE f.1 ++ wordBytesBE f.2.1 ++ wordBytesBE f.2.2.1 ++
  wordBytesBE f.2.2.2.1 ++ wordBytesBE f.2.2.2.2

/-! ## HMAC (RFC 2104), as used by `hmac.new(key, msg, hashlib.sha1)` -/

/-- HMAC-SHA1 digest (20 bytes) of `msg` under `key`. -/
def hmacSha1 (key msg : List Nat) : List Nat :=
  let k0 := if 64 < key.length then sha1Bytes key else key
  let kp := k0 ++ List.replicate (64 - k0.length) 0
  let ipad := kp.map (Nat.xor 0x36)
  let opad := kp.map (Nat.xor 0x5c)
  sha1Bytes (opad ++ sha1Bytes (ipad ++ msg))

/-- `hmac.new(key, msg, hashlib.sha1).hexdigest()`. -/
def hmacSha1Hex (key msg : String) : String := bytesToHex (hmacSha1 (strBytes key) (strBytes msg))

/-! ## MD5 (RFC 1321) -/

/-- Little-endian 32-bit words of a byte list (length a multiple of 4). -/
def bytesToWordsLE : List Nat → List Nat
  | b1 :: b2 :: b3 :: b4 :: rest => (((b4 * 256 + b3) * 256 + b2) * 256 + b1) :: bytesToWordsLE rest
  | _ => []

/-- Little-endian bytes of one 32-bit word. -/
def wordBytesLE (w : Nat) : List Nat := [w % 256, w / 2 ^ 8 % 256, w / 2 ^ 16 % 256, w / 2 ^ 24 % 256]

/-- MD5 padding: like SHA-1 but the 64-bit bit length is little-endian. -/
def md5Pad (msg : List Nat) : List Nat :=
  msg ++ 128 :: List.replicate ((119 - msg.length % 64) % 64) 0 ++
    (lenBytesBE (msg.length * 8)).reverse

/-- The 64 MD5 sine-derived constants. -/
def md5K : List Nat :=
  [0xd76aa478, 0xe8c7b756, 0x242070db, 0xc1bdceee, 0xf57c0faf, 0x4787c62a, 0xa8304613, 0xfd469501,
   0x698098d8, 0x8b44f7af, 0xffff5bb1, 0x895cd7be, 0x6b901122, 0xfd987193, 0xa679438e, 0x49b40821,
   0xf61e2562, 0xc040b340, 0x265e5a51, 0xe9b6c7aa, 0xd62f105d, 0x02441453, 0xd8a1e681, 0xe7d3fbc8,
   0x21e1cde6, 0xc33707d6, 0xf4d50d87, 0x455a14ed, 0xa9e3e905, 0xfcefa3f8, 0x676f02d9, 0x8d2a4c8a,
   0xfffa3942, 0x8771f681, 0x6d9d6122, 0xfde5380c, 0xa4beea44, 0x4bdecfa9, 0xf6bb4b60, 0xbebfbc70,
   0x289b7ec6, 0xeaa127fa, 0xd4ef3085, 0x04881d05, 0xd9d4d039, 0xe6db99e5, 0x1fa27cf8, 0xc4ac5665,
   0xf4292244, 0x432aff97, 0xab9423a7, 0xfc93a039, 0x655b59c3, 0x8f0ccc92, 0xffeff47d, 0x85845dd1,
   0x6fa87e4f, 0xfe2ce6e0, 0xa3014314, 0x4e0811a1, 0xf7537e82, 0xbd3af235, 0x2ad7d2bb, 0xeb86d391]

/-- The 64 MD5 per-round left-rotation amounts. -/
def md5S : List Nat :=
  [7, 12, 17, 22, 7, 12, 17, 22, 7, 12, 17, 22, 7, 12, 17, 22,
   5, 9, 14, 20, 5, 9, 14, 20, 5, 9, 14, 20, 5, 9, 14, 20,
   4, 11, 16, 23, 4, 11, 16, 23, 4, 11, 16, 23, 4, 11, 16, 23,
   6, 10, 15, 21, 6, 10, 15, 21, 6, 10, 15, 21, 6, 10, 15, 21]

/-- MD5 round function for round `i`. -/
def md5F (i b c d : Nat) : Nat :=
  if i < 16 then (b.land c).lor ((not32 b).land d)
  else if i < 32 then (d.land b).lor ((not32 d).land c)
  else if i < 48 then (b.xor c).xor d
  else c.xor (b.lor (not32 d))

/-- MD5 message word index for round `i`. -/
def md5G (i : Nat) : Nat :=
  if i < 16 then i
  else if i < 32 then (5 * i + 1) % 16
  else if i < 48 then (3 * i + 5) % 16
  else 7 * i % 16

/-- One MD5 block compression. -/
def md5Block (h : Nat × Nat × Nat × Nat) (block : List Nat) : Nat × Nat × Nat × Nat :=
  let m := bytesToWordsLE block
  let (h0, h1, h2, h3) := h
  let s := (List.range 64).foldl
    (fun (st : Nat × Nat × Nat × Nat) i =>
      let (a, b, c, d) := st
      let f := (md5F i b c d + a + md5K.getD i 0 + m.getD (md5G i) 0) % 2 ^ 32
      (d, (b + rotl32 (md5S.getD i 0) f) % 2 ^ 32, b, c))
    (h0, h1, h2, h3)
  ((h0 + s.1) % 2 ^ 32, (h1 + s.2.1) % 2 ^ 32, (h2 + s.2.2.1) % 2 ^ 32, (h3 + s.2.2.2) % 2 ^ 32)

/-- MD5 digest of a byte list, as 16 bytes. -/
def md5Bytes (msg : List Nat) : List Nat :=
  let f := (chunks64 (md5Pad msg)).foldl md5Block (0x67452301, 0xefcdab89, 0x98badcfe, 0x10325476)
  wordBytesLE f.1 ++ wordBytesLE f.2.1 ++ wordBytesLE f.2.2.1 ++ wordBytesLE f.2.2.2

/-- `hashlib.md5(s).hexdigest()`. -/
def md5Hex (s : String) : String := bytesToHex (md5Bytes (strBytes s))

/-! ## JSON values and Python-style errors -/

/-- A decoded JSON tree (the codec collaborator's output type). -/
inductive Json where
  | null : Json
  | bool (b : Bool) : Json
  | num (n : Int) : Json
  | str (s : String) : Json
  | arr (elems : List Json) : Json
  | obj (fields : List (String × Json)) : Json

/-- The Python exceptions this module can raise or propagate:
`KeyError` from dict subscripts, `TypeError` from subscripting a
non-dict (for example `None`), `Exception(v)` raised explicitly, and
errors surfaced by the transport/codec collaborator. -/
inductive PyErr where
  | keyError (k : String) : PyErr
  | typeError : PyErr
  | exception (v : Json) : PyErr
  | transportError : PyErr

/-- Key membership lookup in a JSON object, first occurrence. -/
def Json.lookup (j : Json) (k : String) : Option Json :=
  match j with
  | .obj fields => (fields.find? (fun p => p.1 == k)).map (fun p => p.2)
  | _ => none

/-- Python subscript `j[k]` with a string key: `KeyError` when a dict
lacks the key, `TypeError` on a non-dict. -/
def pyGetItem (j : Json) (k : String) : Except PyErr Json :=
  match j with
  | .obj fields =>
      match fields.find? (fun p => p.1 == k) with
      | some p => .ok p.2
      | none => .error (.keyError k)
  | _ => .error .typeError

/-- Python subscript on an optional value: subscripting `None` (the
implicit return of `Request.send` when neither payload key is present)
is a `TypeError`. -/
def pyGetItemOpt (o : Option Json) (k : String) : Except PyErr Json :=
  match o with
  | none => .error .typeError
  | some j => pyGetItem j k

/-- Python `j == "s"` for a decoded JSON value: true only for an equal
string (comparison of a non-string with a string is simply unequal). -/
def jsonEqStr (j : Json) (s : String) : Bool :=
  match j with
  | .str t => t == s
  | _ => false

/-- Python `str(x)` on an optional string, as used on `self.secret_key`
and `self.access_id` (`str(None)` is the literal `"None"`). -/
def pyStr (o : Option String) : String :=
  match o with
  | some s => s
  | none => "None"

/-- The Python value stored by `self.access_id = data['AccessId']` (and
likewise `SecretKey`), reduced to the `Option String` credential field:
JSON `null` is Python `None` (so the stored field *is* `None`, and the
`is None` credential check in `Client.request` sees it); a JSON string
is stored as itself; other scalars are represented by their Python
`str()` rendering, which is what every later observation
(`str(self.secret_key)` in `sign`, string concatenation in the
`X-Authorization` header) applies to them. -/
def jsonToCred (j : Json) : Option String :=
  match j with
  | .null => none
  | .str s => some s
  | .bool b => some (if b then "True" else "False")
  | .num n => some (toString n)
  | _ => some ""

/-! ## The `Request` class -/

/-- `megaplan.Request`: one transient API call. -/
structure Request where
  method : String
  proto : String
  uri : String
  access_id : Option String
  secret_key : Option String
  content_type : String
  date : String
  signature : Option String
  data : Option (List (String × String))

/-- `Request.__init__(hostname, access_id, secret_key, uri, data)`.  The
`date` string is the output of the clock collaborator
(`time.strftime('%a, %d %b %Y %H:%M:%S +0000', time.gmtime())`), passed
in as an input. -/
def Request.make (hostname : String) (access_id secret_key : Option String) (uri : String)
    (data : Option (List (String × String))) (date : String) : Request :=
  { method := "POST"
    proto := "http"
    uri := hostname ++ "/" ++ uri
    access_id := access_id
    secret_key := secret_key
    content_type := "application/x-www-form-urlencoded"
    date := date
    signature := none
    data := data }

/-- The canonical text of `Request.sign`:
`'\n'.join([self.method, '', self.content_type, self.date, self.uri])`. -/
def Request.canonicalText (r : Request) : String :=
  String.intercalate "\n" [r.method, "", r.content_type, r.date, r.uri]

/-- `Request.sign`: HMAC-SHA1 of the canonical text under
`str(self.secret_key)`, hex-rendered, then base64-encoded and stored in
`self.signature`. -/
def Request.sign (r : Request) : Request :=
  { r with
    signature := some (b64encode (strBytes (hmacSha1Hex (pyStr r.secret_key) r.canonicalText))) }

/-- What `Request.send` hands to `urllib2`: the URL, the `data` argument
of `urllib2.Request` (either absent, or the url-encoded string — or, via
the `self.data and urllib.urlencode(self.data)` short-circuit, the raw
empty mapping itself when `self.data == {}`), and the headers.  `method`
records the verb `urllib2` transmits: POST when `data` is not `None`,
GET when it is. -/
inductive BodyArg where
  | encoded (s : String) : BodyArg
  | rawMapping (m : List (String × String)) : BodyArg

/-- The wire-level request handed to the transport collaborator. -/
structure WireRequest where
  url : String
  body : Option BodyArg
  headers : List (String × String)
  method : String

/-- The wire request assembled by the first half of `Request.send`:
`url = self.proto + '://' + self.uri`;
`data = self.data and urllib.urlencode(self.data)` (Python `and`:
`None` stays `None`, the falsy empty dict stays the raw empty dict);
the three fixed headers plus `X-Authorization` exactly when
`self.signature` is truthy (a non-empty string). -/
def Request.wire (r : Request) : WireRequest :=
  let body : Option BodyArg :=
    match r.data with
    | none => none
    | some [] => some (.rawMapping [])
    | some m => some (.encoded (urlencode m))
  { url := r.proto ++ "://" ++ r.uri
    body := body
    headers :=
      [("Date", r.date), ("Accept", "application/json"), ("User-Agent", "SdfApi_Request")] ++
      (match r.signature with
       | some sg => if sg = "" then [] else [("X-Authorization", pyStr r.access_id ++ ":" ++ sg)]
       | none => [])
    method := match body with
      | some _ => "POST"
      | none => "GET" }

/-- The envelope interpretation in the second half of `Request.send`:
`data['status']['code'] != 'ok'` raises `Exception(data['status']['message'])`;
otherwise the `data` payload, else the `json` payload, else the implicit
`None` return. -/
def processResponse (env : Json) : Except PyErr (Option Json) :=
  match pyGetItem env "status" with
  | .error e => .error e
  | .ok st =>
    match pyGetItem st "code" with
    | .error e => .error e
    | .ok code =>
      if jsonEqStr code "ok" then
        match env.lookup "data" with
        | some v => .ok (some v)
        | none =>
          match env.lookup "json" with
          | some v => .ok (some v)
          | none => .ok none
      else
        match pyGetItem st "message" with
        | .error e => .error e
        | .ok msg => .error (.exception msg)

/-- `Request.send`: assemble the wire request, hand it to the
transport+codec collaborator (`urllib2.urlopen` then
`simplejson.loads`), and interpret the envelope.  The second component
logs every wire request handed to the transport. -/
def Request.send (transport : WireRequest → Except PyErr Json) (r : Request) :
    Except PyErr (Option Json) × List WireRequest :=
  let w := r.wire
  (match transport w with
   | .error e => .error e
   | .ok env => processResponse env, [w])

/-! ## The `Client` class -/

/-- `megaplan.Client`: hostname plus optional credential pair. -/
structure Client where
  hostname : String
  access_id : Option String
  secret_key : Option String

/-- Result type of `Client.request` and the convenience wrappers: the
client (threaded `self`), the outcome, and the log of wire requests
handed to the transport. -/
abbrev CallResult (α : Type) := Client × (Except PyErr α × List WireRequest)

/-- `Client.request(uri, args, signed)`: raise `Exception('Authenticate
first.')` when a credential is missing and `signed == True`; otherwise
build a `Request`, sign it when `signed`, and send it. -/
def Client.request (c : Client) (transport : WireRequest → Except PyErr Json) (date : String)
    (uri : String) (args : Option (List (String × String))) (signed : Bool) :
    CallResult (Option Json) :=
  if (c.access_id.isNone || c.secret_key.isNone) && signed then
    (c, (.error (.exception (.str "Authenticate first.")), []))
  else
    let req := Request.make c.hostname c.access_id c.secret_key uri args date
    let req := if signed then req.sign else req
    (c, req.send transport)

/-- `Client.authenticate(login, password)`: an unsigned request to
`BumsCommonApiV01/User/authorize.api` with `Login` and the MD5 hex
digest of the password; on return the credential fields are assigned
one by one (`self.access_id` before `self.secret_key` before the
`EmployeeId` read, so a failing later subscript leaves the earlier
assignments in place), and the stored pair plus `EmployeeId` is
returned. -/
def Client.authenticate (c : Client) (transport : WireRequest → Except PyErr Json) (date : String)
    (login password : String) : CallResult (Option String × Option String × Json) :=
  let (c1, res, log) := c.request transport date "BumsCommonApiV01/User/authorize.api"
    (some [("Login", login), ("Password", md5Hex password)]) false
  match res with
  | .error e => (c1, (.error e, log))
  | .ok payload =>
    match pyGetItemOpt payload "AccessId" with
    | .error e => (c1, (.error e, log))
    | .ok aid =>
      let c2 := { c1 with access_id := jsonToCred aid }
      match pyGetItemOpt payload "SecretKey" with
      | .error e => (c2, (.error e, log))
      | .ok sk =>
        let c3 := { c2 with secret_key := jsonToCred sk }
        match pyGetItemOpt payload "EmployeeId" with
        | .error e => (c3, (.error e, log))
        | .ok eid => (c3, (.ok (c3.access_id, c3.secret_key, eid), log))

/-- `Client.get_actual_tasks`: `self.request(...)['tasks']`. -/
def Client.get_actual_tasks (c : Client) (transport : WireRequest → Except PyErr Json)
    (date : String) : CallResult Json :=
  let (c1, res, log) := c.request transport date "BumsTaskApiV01/Task/list.api"
    (some [("Status", "actual")]) true
  match res with
  | .error e => (c1, (.error e, log))
  | .ok payload => (c1, (pyGetItemOpt payload "tasks", log))

/-- `Client.get_tasks_by_status(status)`: the `status` argument defaults
to `None`, and `urllib.urlencode` renders the value through `str()`, so
the field value is `pyStr status`. -/
def Client.get_tasks_by_status (c : Client) (transport : WireRequest → Except PyErr Json)
    (date : String) (status : Option String) : CallResult Json :=
  let (c1, res, log) := c.request transport date "BumsTaskApiV01/Task/list.api"
    (some [("Status", pyStr status)]) true
  match res with
  | .error e => (c1, (.error e, log))
  | .ok payload => (c1, (pyGetItemOpt payload "tasks", log))

/-- `Client.get_task_details(task_id)`. -/
def Client.get_task_details (c : Client) (transport : WireRequest → Except PyErr Json)
    (date : String) (task_id : String) : CallResult (Option Json) :=
  c.request transport date "BumsTaskApiV01/Task/card.api" (some [("Id", task_id)]) true

/-- `Client.get_task_comments(task_id)`. -/
def Client.get_task_comments (c : Client) (transport : WireRequest → Except PyErr Json)
    (date : String) (task_id : String) : CallResult (Option Json) :=
  c.request transport date "BumsCommonApiV01/Comment/list.api"
    (some [("SubjectType", "task"), ("SubjectId", task_id)]) true

/-- `Client.set_reaction(token, message)`. -/
def Client.set_reaction (c : Client) (transport : WireRequest → Except PyErr Json)
    (date : String) (token message : String) : CallResult (Option Json) :=
  c.request transport date "SdfNotify/ReactionApi/do.api"
    (some [("Token", token), ("params[text]", message)]) true

/-- `Client.get_employee_card(employee_id)`. -/
def Client.get_employee_card (c : Client) (transport : WireRequest → Except PyErr Json)
    (date : String) (employee_id : String) : CallResult (Option Json) :=
  c.request transport date "BumsStaffApiV01/Employee/card.api" (some [("Id", employee_id)]) true

/-- `Client.get_employee_list()`: note the explicit empty mapping. -/
def Client.get_employee_list (c : Client) (transport : WireRequest → Except PyErr Json)
    (date : String) : CallResult (Option Json) :=
  c.request transport date "BumsStaffApiV01/Employee/list.api" (some []) true

/-! ## Validation of the collaborator implementations against published
test vectors (FIPS 180-1 appendix, RFC 1321 appendix, RFC 4648, and
values cross-checked against CPython). -/

set_option maxRecDepth 10000

example : bytesToHex (sha1Bytes (strBytes "abc")) = "a9993e364706816aba3e25717850c26c9cd0d89d" := by
  decide

example : bytesToHex (sha1Bytes (strBytes "")) = "da39a3ee5e6b4b0d3255bfef95601890afd80709" := by
  decide

example : md5Hex "abc" = "900150983cd24fb0d6963f7d28e17f72" := by decide

example : b64encode (strBytes "abc") = "YWJj" := by decide

example : b64encode (strBytes "ab") = "YWI=" := by decide

example : b64encode (strBytes "a") = "YQ==" := by decide

example : urlencode [("Status", "actual"), ("q", "a b/c&=_.-~")] =
    "Status=actual&q=a+b%2Fc%26%3D_.-%7E" := by decide

example : hmacSha1Hex "key" "The quick brown fox jumps over the lazy dog" =
    "de7c9b85b8b78aa6bc8a7a36f70a90701c9db4d9" := by decide

/-! ## Shared lemmas about the embedded definitions -/

/-- The canonical text is the five fields joined by single newlines. -/
theorem Request.canonicalText_eq (r : Request) :
    r.canonicalText =
      r.method ++ "\n" ++ "" ++ "\n" ++ r.content_type ++ "\n" ++ r.date ++ "\n" ++ r.uri := rfl

/-- A SHA-1 digest has 20 bytes. -/
theorem sha1Bytes_length (msg : List Nat) : (sha1Bytes msg).length = 20 := by
  unfold sha1Bytes wordBytesBE
  simp

/-- All bytes emitted by `wordBytesBE` are below 256. -/
theorem wordBytesBE_lt (w : Nat) : ∀ b ∈ wordBytesBE w, b < 256 := by
  intro b hb
  simp only [wordBytesBE, List.mem_cons, List.not_mem_nil, or_false] at hb
  rcases hb with h | h | h | h <;> omega

/-- All bytes of a SHA-1 digest are below 256. -/
theorem sha1Bytes_lt (msg : List Nat) : ∀ b ∈ sha1Bytes msg, b < 256 := by
  unfold sha1Bytes
  intro b hb
  simp only [List.mem_append] at hb
  rcases hb with ((((h | h) | h) | h) | h) <;> exact wordBytesBE_lt _ b h

/-- An HMAC-SHA1 digest has 20 bytes. -/
theorem hmacSha1_length (key msg : List Nat) : (hmacSha1 key msg).length = 20 :=
  sha1Bytes_length _

/-- All bytes of an HMAC-SHA1 digest are below 256. -/
theorem hmacSha1_lt (key msg : List Nat) : ∀ b ∈ hmacSha1 key msg, b < 256 :=
  sha1Bytes_lt _

/-- The lowercase hexadecimal digits. -/
def hexLowerAlphabet : List Char := "0123456789abcdef".data

/-- `hexDigitChar` lands in the lowercase hexadecimal alphabet. -/
theorem hexDigitChar_mem : ∀ n : Fin 16, hexDigitChar n ∈ hexLowerAlphabet := by decide

/-- Every character of a hex rendering of bytes is a lowercase hex digit. -/
theorem mem_bytesToHex (l : List Nat) (hb : ∀ b ∈ l, b < 256) :
    ∀ ch ∈ (bytesToHex l).data, ch ∈ hexLowerAlphabet := by
  induction l with
  | nil => intro ch h; simp [bytesToHex] at h
  | cons a t ih =>
    intro ch h
    have ha : a < 256 := hb a (by simp)
    have h1 : (bytesToHex (a :: t)).data = byteHex a ++ (bytesToHex t).data := rfl
    rw [h1] at h
    rcases List.mem_append.mp h with h2 | h2
    · simp only [byteHex, List.mem_cons, List.not_mem_nil, or_false] at h2
      rcases h2 with h2 | h2 <;> subst h2
      · exact hexDigitChar_mem ⟨a / 16, by omega⟩
      · exact hexDigitChar_mem ⟨a % 16, by omega⟩
    · exact ih (fun b hbt => hb b (by simp [hbt])) ch h2

/-! ## C1: the signing pipeline -/

/-- C1: for every request whose secret key is present, `sign()` joins
with single newlines exactly the five fields method, empty string,
contentType, date, uri — in that order — computes HMAC-SHA1 keyed by
the secret key over that text, renders the digest as a lowercase
hexadecimal string, and stores as the signature the Base64 encoding of
that hexadecimal string (the bytes of the hex characters, not the raw
digest bytes); and `method` is the constant `"POST"` for every
constructed request. -/
theorem sign_hex_then_base64 (r : Request) (k : String) (h : r.secret_key = some k) :
    (r.sign).signature =
      some (b64encode (strBytes (bytesToHex (hmacSha1 (strBytes k)
        (strBytes (r.method ++ "\n" ++ "" ++ "\n" ++ r.content_type ++ "\n" ++ r.date ++ "\n" ++
          r.uri))))))
    ∧ (∀ hostname a s u d dt, (Request.make hostname a s u d dt).method = "POST")
    ∧ (∀ ch ∈ (bytesToHex (hmacSha1 (strBytes k) (strBytes r.canonicalText))).data,
        ch ∈ hexLowerAlphabet) := by
  refine ⟨?_, fun _ _ _ _ _ _ => rfl, mem_bytesToHex _ (hmacSha1_lt _ _)⟩
  show some (b64encode (strBytes (hmacSha1Hex (pyStr r.secret_key) r.canonicalText))) = _
  rw [h]
  rfl

/-- Witness for C1 at a concrete request. -/
theorem sign_hex_then_base64_witness :
    (Request.sign ⟨"POST", "http", "example.com/Task/list.api", some "A", some "k",
        "application/x-www-form-urlencoded", "Mon, 01 Jan 2024 00:00:00 +0000", none,
        none⟩).signature =
      some (b64encode (strBytes (bytesToHex (hmacSha1 (strBytes "k")
        (strBytes ("POST" ++ "\n" ++ "" ++ "\n" ++ "application/x-www-form-urlencoded" ++ "\n" ++
          "Mon, 01 Jan 2024 00:00:00 +0000" ++ "\n" ++ "example.com/Task/list.api")))))) :=
  (sign_hex_then_base64 ⟨"POST", "http", "example.com/Task/list.api", some "A", some "k",
    "application/x-www-form-urlencoded", "Mon, 01 Jan 2024 00:00:00 +0000", none, none⟩
    "k" rfl).1

/-! ## C2: signed call without credentials -/

/-- C2: for every client missing its access id or secret key, the
generic request operation with `signed = true` fails with the
authentication-required error, the client is unchanged, and the
transport log is empty (no wire request was constructed or handed to
the transport collaborator), for every transport. -/
theorem request_unauthenticated_fails (hostname : String) (aid sk : Option String)
    (h : aid = none ∨ sk = none) (transport : WireRequest → Except PyErr Json)
    (date uri : String) (args : Option (List (String × String))) :
    Client.request ⟨hostname, aid, sk⟩ transport date uri args true =
      (⟨hostname, aid, sk⟩, (.error (.exception (.str "Authenticate first.")), [])) := by
  unfold Client.request
  rcases h with h | h <;> subst h <;> simp

/-- Witness for C2 at a concrete client and transport. -/
theorem request_unauthenticated_fails_witness :
    Client.request ⟨"xyz.megaplan.ru", none, some "S"⟩ (fun _ => .ok (.obj [])) "D"
        "BumsTaskApiV01/Task/list.api" none true =
      (⟨"xyz.megaplan.ru", none, some "S"⟩,
        (.error (.exception (.str "Authenticate first.")), [])) :=
  request_unauthenticated_fails "xyz.megaplan.ru" none (some "S") (Or.inl rfl)
    (fun _ => .ok (.obj [])) "D" "BumsTaskApiV01/Task/list.api" none

/-! ## C5: URL, verb and body handed to the transport -/

/-- C5 evaluation: the URL is `scheme + "://" + uri` and a non-empty
body mapping is form-url-encoded and POSTed; but a request whose body
mapping is absent is handed to `urllib2` with `data = None` and
therefore goes out as a GET, and a request with a present-but-empty
body mapping short-circuits in `self.data and urllib.urlencode(self.data)`
to the raw empty mapping instead of the encoded empty string (the
`get_employee_list` wrapper passes exactly such an empty mapping). -/
theorem send_verb_and_body_eval :
    (Request.make "xyz.megaplan.ru" none none "BumsTaskApiV01/Task/list.api" none "D").wire.method
        = "GET"
    ∧ (Request.make "xyz.megaplan.ru" none none "BumsTaskApiV01/Task/list.api" none
        "D").wire.body = none
    ∧ (Request.make "xyz.megaplan.ru" none none "BumsStaffApiV01/Employee/list.api" (some [])
        "D").wire.body = some (.rawMapping [])
    ∧ (Request.make "xyz.megaplan.ru" none none "BumsTaskApiV01/Task/list.api"
        (some [("Status", "actual")]) "D").wire =
      { url := "http://" ++ "xyz.megaplan.ru" ++ "/" ++ "BumsTaskApiV01/Task/list.api"
        body := some (.encoded "Status=actual")
        headers := [("Date", "D"), ("Accept", "application/json"),
          ("User-Agent", "SdfApi_Request")]
        method := "POST" } :=
  ⟨rfl, rfl, rfl, rfl⟩

/-! ## C7: the X-Authorization header -/

/-- Membership of a header name in the assembled wire request. -/
def WireRequest.hasHeader (w : WireRequest) (k : String) : Prop :=
  ∃ v, (k, v) ∈ w.headers

/-- A SHA-1 digest is never the empty byte list. -/
theorem sha1Bytes_ne_nil (msg : List Nat) : sha1Bytes msg ≠ [] := by
  intro h
  have := sha1Bytes_length msg
  rw [h] at this
  simp at this

/-- An HMAC-SHA1 digest is never the empty byte list. -/
theorem hmacSha1_ne_nil (key msg : List Nat) : hmacSha1 key msg ≠ [] :=
  sha1Bytes_ne_nil _

/-- The bytes of a hex rendering of a non-empty byte list are non-empty. -/
theorem strBytes_bytesToHex_ne_nil (l : List Nat) (h : l ≠ []) :
    strBytes (bytesToHex l) ≠ [] := by
  cases l with
  | nil => exact absurd rfl h
  | cons a t => simp [strBytes, bytesToHex, byteHex]

/-- Base64 of a non-empty byte list is a non-empty string. -/
theorem b64encode_ne_empty (l : List Nat) (h : l ≠ []) : b64encode l ≠ "" := by
  intro habs
  have hd : b64encodeCore l = [] := congrArg String.data habs
  match l with
  | [] => exact h rfl
  | [b1] => simp [b64encodeCore] at hd
  | [b1, b2] => simp [b64encodeCore] at hd
  | b1 :: b2 :: b3 :: rest => simp [b64encodeCore] at hd

/-- The signature stored by `sign` is always a non-empty (hence truthy)
string. -/
theorem sign_signature_truthy (r : Request) :
    (r.sign).signature =
      some (b64encode (strBytes (hmacSha1Hex (pyStr r.secret_key) r.canonicalText)))
    ∧ b64encode (strBytes (hmacSha1Hex (pyStr r.secret_key) r.canonicalText)) ≠ "" :=
  ⟨rfl, b64encode_ne_empty _ (strBytes_bytesToHex_ne_nil _ (hmacSha1_ne_nil _ _))⟩

/-- A request whose `signature` field is `None` is sent without an
`X-Authorization` header. -/
theorem wire_no_xauth_of_sig_none (r : Request) (h : r.signature = none) :
    ¬ r.wire.hasHeader "X-Authorization" := by
  intro hmem
  rcases hmem with ⟨v, hv⟩
  simp only [Request.wire, h, List.append_nil] at hv
  simp at hv

/-- C7: the `X-Authorization` header (value `accessId + ":" + signature`)
is attached exactly when a signature was computed: an unsigned request
carries no such header; a request that went through `sign()` always
carries it; and the generic call with `signed = false` logs only wire
requests without it, whatever credentials the client holds. -/
theorem xauth_iff_signature (r1 r2 : Request)
    (h1 : r1.signature = none)
    (c : Client) (transport : WireRequest → Except PyErr Json) (date uri : String)
    (args : Option (List (String × String))) :
    (¬ r1.wire.hasHeader "X-Authorization")
    ∧ (r2.sign).wire.hasHeader "X-Authorization"
    ∧ (∀ w ∈ (c.request transport date uri args false).2.2,
        ¬ w.hasHeader "X-Authorization") := by
  refine ⟨wire_no_xauth_of_sig_none r1 h1, ?_, ?_⟩
  · have hne := (sign_signature_truthy r2).2
    refine ⟨pyStr (r2.sign).access_id ++ ":" ++
      b64encode (strBytes (hmacSha1Hex (pyStr r2.secret_key) r2.canonicalText)), ?_⟩
    simp only [Request.wire, Request.sign, if_neg hne]
    simp
  · intro w hw
    have hfst : (c.request transport date uri args false).2.2 =
        [(Request.make c.hostname c.access_id c.secret_key uri args date).wire] := by
      unfold Client.request
      simp [Request.send]
    rw [hfst] at hw
    simp only [List.mem_singleton] at hw
    subst hw
    exact wire_no_xauth_of_sig_none _ rfl

/-- Witness for C7 at concrete requests and client. -/
theorem xauth_iff_signature_witness :
    (¬ (Request.make "h" (some "A") (some "k") "u.api" none "D").wire.hasHeader
        "X-Authorization")
    ∧ ((Request.make "h" (some "A") (some "k") "u.api" none "D").sign).wire.hasHeader
        "X-Authorization"
    ∧ (∀ w ∈ ((⟨"h", some "A", some "k"⟩ : Client).request (fun _ => .ok (.obj []))
        "D" "u.api" none false).2.2, ¬ w.hasHeader "X-Authorization") :=
  xauth_iff_signature (Request.make "h" (some "A") (some "k") "u.api" none "D")
    (Request.make "h" (some "A") (some "k") "u.api" none "D") rfl
    ⟨"h", some "A", some "k"⟩ (fun _ => .ok (.obj [])) "D" "u.api" none

/-! ## C3: envelope interpretation in `send` -/

/-- C3: for every decoded envelope with a status code, `send()` fails
with an error carrying `status.message` verbatim when the code is not
`"ok"`, and otherwise returns the `data` payload if present, else the
`json` payload if present, else the absent result. -/
theorem send_envelope_interpretation (r : Request)
    (transport : WireRequest → Except PyErr Json) (env st code msg : Json)
    (htr : transport r.wire = .ok env)
    (hst : pyGetItem env "status" = .ok st)
    (hcode : pyGetItem st "code" = .ok code) :
    (jsonEqStr code "ok" = false → pyGetItem st "message" = .ok msg →
      (r.send transport).1 = .error (.exception msg))
    ∧ (jsonEqStr code "ok" = true →
      (r.send transport).1 = .ok (match env.lookup "data" with
        | some v => some v
        | none => env.lookup "json")) := by
  have h1 : (r.send transport).1 = processResponse env := by
    simp only [Request.send, htr]
  rw [h1]
  unfold processResponse
  simp only [hst, hcode]
  constructor
  · intro hne hmsg
    simp only [hne, Bool.false_eq_true, if_false, hmsg]
  · intro htrue
    simp only [htrue, if_true]
    cases hd : env.lookup "data" with
    | some v => rfl
    | none =>
      cases hj : env.lookup "json" with
      | some v => rfl
      | none => rfl

/-- Witness for C3 at a concrete request and error envelope. -/
theorem send_envelope_interpretation_witness :
    (jsonEqStr (.str "error") "ok" = false →
      pyGetItem (.obj [("code", Json.str "error"), ("message", Json.str "boom")]) "message" =
        .ok (.str "boom") →
      ((Request.make "h" none none "u.api" none "D").send (fun _ =>
        .ok (.obj [("status", .obj [("code", Json.str "error"),
          ("message", Json.str "boom")])]))).1 = .error (.exception (.str "boom")))
    ∧ (jsonEqStr (.str "error") "ok" = true →
      ((Request.make "h" none none "u.api" none "D").send (fun _ =>
        .ok (.obj [("status", .obj [("code", Json.str "error"),
          ("message", Json.str "boom")])]))).1 =
        .ok (match (Json.obj [("status", .obj [("code", Json.str "error"),
            ("message", Json.str "boom")])]).lookup "data" with
          | some v => some v
          | none => (Json.obj [("status", .obj [("code", Json.str "error"),
              ("message", Json.str "boom")])]).lookup "json")) :=
  send_envelope_interpretation (Request.make "h" none none "u.api" none "D")
    (fun _ => .ok (.obj [("status", .obj [("code", Json.str "error"),
      ("message", Json.str "boom")])]))
    (.obj [("status", .obj [("code", Json.str "error"), ("message", Json.str "boom")])])
    (.obj [("code", Json.str "error"), ("message", Json.str "boom")])
    (.str "error") (.str "boom") rfl rfl rfl

/-! ## C6 and C4: `authenticate` -/

/-- The request built by `Client.authenticate`. -/
def authRequest (c : Client) (date login password : String) : Request :=
  Request.make c.hostname c.access_id c.secret_key "BumsCommonApiV01/User/authorize.api"
    (some [("Login", login), ("Password", md5Hex password)]) date

/-- An unsigned generic call never takes the credential guard and sends
the request built from the client's fields. -/
theorem request_unsigned (c : Client) (transport : WireRequest → Except PyErr Json)
    (date uri : String) (args : Option (List (String × String))) :
    c.request transport date uri args false =
      (c, (Request.make c.hostname c.access_id c.secret_key uri args date).send transport) := by
  unfold Client.request
  simp

/-- C6: when `authenticate` receives an envelope whose `status.code` is
not `"ok"`, it fails with the error carrying `status.message` verbatim
and the client — in particular its credential pair — is unchanged. -/
theorem authenticate_error_envelope (c : Client)
    (transport : WireRequest → Except PyErr Json) (date login password : String)
    (env st code msg : Json)
    (htr : transport (authRequest c date login password).wire = .ok env)
    (hst : pyGetItem env "status" = .ok st)
    (hcode : pyGetItem st "code" = .ok code)
    (hne : jsonEqStr code "ok" = false)
    (hmsg : pyGetItem st "message" = .ok msg) :
    c.authenticate transport date login password =
      (c, (.error (.exception msg), [(authRequest c date login password).wire])) := by
  have hreq : c.request transport date "BumsCommonApiV01/User/authorize.api"
      (some [("Login", login), ("Password", md5Hex password)]) false =
      (c, (.error (.exception msg), [(authRequest c date login password).wire])) := by
    rw [request_unsigned]
    show (c, (authRequest c date login password).send transport) = _
    simp only [Request.send, htr]
    unfold processResponse
    simp only [hst, hcode, hne, Bool.false_eq_true, if_false, hmsg]
  unfold Client.authenticate
  rw [hreq]

/-- Witness for C6: the spec's own scenario, a stub transport returning
an `error` envelope with message `"bad login"`. -/
theorem authenticate_error_envelope_witness :
    Client.authenticate ⟨"xyz.megaplan.ru", none, none⟩
      (fun _ => .ok (.obj [("status", .obj [("code", Json.str "error"),
        ("message", Json.str "bad login")])])) "D" "l" "p" =
      (⟨"xyz.megaplan.ru", none, none⟩, (.error (.exception (.str "bad login")),
        [(authRequest ⟨"xyz.megaplan.ru", none, none⟩ "D" "l" "p").wire])) :=
  authenticate_error_envelope ⟨"xyz.megaplan.ru", none, none⟩
    (fun _ => .ok (.obj [("status", .obj [("code", Json.str "error"),
      ("message", Json.str "bad login")])])) "D" "l" "p"
    (.obj [("status", .obj [("code", Json.str "error"), ("message", Json.str "bad login")])])
    (.obj [("code", Json.str "error"), ("message", Json.str "bad login")])
    (.str "error") (.str "bad login") rfl rfl rfl rfl rfl

/-- C4: for every login and password, `authenticate` sends an unsigned
request to the fixed authentication endpoint with form fields `Login`
(verbatim) and `Password` (the MD5 hex digest of the password bytes,
whose value on the empty string is the well-known constant); on a
success envelope it stores the payload's `AccessId` and `SecretKey` as
the client's credentials and returns the stored pair together with
`EmployeeId`. -/
theorem authenticate_success (c : Client)
    (transport : WireRequest → Except PyErr Json) (date login password : String)
    (env st payload eid : Json) (a s : String)
    (htr : transport (authRequest c date login password).wire = .ok env)
    (hst : pyGetItem env "status" = .ok st)
    (hcode : pyGetItem st "code" = .ok (.str "ok"))
    (hdata : env.lookup "data" = some payload)
    (ha : pyGetItem payload "AccessId" = .ok (.str a))
    (hs : pyGetItem payload "SecretKey" = .ok (.str s))
    (he : pyGetItem payload "EmployeeId" = .ok eid) :
    c.authenticate transport date login password =
      ({ hostname := c.hostname, access_id := some a, secret_key := some s },
        (.ok (some a, some s, eid), [(authRequest c date login password).wire]))
    ∧ (authRequest c date login password).wire.url =
        "http" ++ "://" ++ c.hostname ++ "/" ++ "BumsCommonApiV01/User/authorize.api"
    ∧ (authRequest c date login password).wire.body =
        some (.encoded (urlencode [("Login", login), ("Password", md5Hex password)]))
    ∧ (¬ (authRequest c date login password).wire.hasHeader "X-Authorization")
    ∧ md5Hex "" = "d41d8cd98f00b204e9800998ecf8427e" := by
  refine ⟨?_, ?_, rfl, wire_no_xauth_of_sig_none _ rfl, by decide⟩
  · have hreq : c.request transport date "BumsCommonApiV01/User/authorize.api"
        (some [("Login", login), ("Password", md5Hex password)]) false =
        (c, (.ok (some payload), [(authRequest c date login password).wire])) := by
      rw [request_unsigned]
      show (c, (authRequest c date login password).send transport) = _
      simp only [Request.send, htr]
      unfold processResponse
      simp only [hst, hcode, jsonEqStr, beq_self_eq_true, if_true, hdata]
    unfold Client.authenticate
    rw [hreq]
    show (match pyGetItemOpt (some payload) "AccessId" with
      | .error e => _
      | .ok aid => _) = _
    simp only [pyGetItemOpt, ha, hs, he, jsonToCred]
  · show "http" ++ "://" ++ (c.hostname ++ "/" ++ "BumsCommonApiV01/User/authorize.api") = _
    simp [String.append_assoc]

/-- Witness for C4 at a concrete client, login and empty password. -/
theorem authenticate_success_witness :
    Client.authenticate ⟨"xyz.megaplan.ru", none, none⟩
        (fun _ => .ok (.obj [("status", .obj [("code", Json.str "ok")]),
          ("data", .obj [("AccessId", Json.str "A"), ("SecretKey", Json.str "S"),
            ("EmployeeId", Json.num 7)])])) "D" "l" "" =
      ({ hostname := "xyz.megaplan.ru", access_id := some "A", secret_key := some "S" },
        (.ok (some "A", some "S", .num 7),
          [(authRequest ⟨"xyz.megaplan.ru", none, none⟩ "D" "l" "").wire]))
    ∧ (authRequest ⟨"xyz.megaplan.ru", none, none⟩ "D" "l" "").wire.url =
        "http" ++ "://" ++ "xyz.megaplan.ru" ++ "/" ++ "BumsCommonApiV01/User/authorize.api"
    ∧ (authRequest ⟨"xyz.megaplan.ru", none, none⟩ "D" "l" "").wire.body =
        some (.encoded (urlencode [("Login", "l"), ("Password", md5Hex "")]))
    ∧ (¬ (authRequest ⟨"xyz.megaplan.ru", none, none⟩ "D" "l" "").wire.hasHeader
        "X-Authorization")
    ∧ md5Hex "" = "d41d8cd98f00b204e9800998ecf8427e" :=
  authenticate_success ⟨"xyz.megaplan.ru", none, none⟩
    (fun _ => .ok (.obj [("status", .obj [("code", Json.str "ok")]),
      ("data", .obj [("AccessId", Json.str "A"), ("SecretKey", Json.str "S"),
        ("EmployeeId", Json.num 7)])])) "D" "l" ""
    (.obj [("status", .obj [("code", Json.str "ok")]),
      ("data", .obj [("AccessId", Json.str "A"), ("SecretKey", Json.str "S"),
        ("EmployeeId", Json.num 7)])])
    (.obj [("code", Json.str "ok")])
    (.obj [("AccessId", Json.str "A"), ("SecretKey", Json.str "S"),
      ("EmployeeId", Json.num 7)])
    (.num 7) "A" "S" rfl rfl rfl rfl rfl rfl rfl

/-! ## C10: the `tasks` lookup in the task-listing wrappers -/

/-- Evaluation of a signed generic call under a transport that returns
envelope `env` for the signed wire request. -/
theorem request_signed_eval (c : Client) (transport : WireRequest → Except PyErr Json)
    (date uri : String) (args : Option (List (String × String))) (a s : String) (env : Json)
    (h1 : c.access_id = some a) (h2 : c.secret_key = some s)
    (htr : transport ((Request.make c.hostname c.access_id c.secret_key uri args date).sign).wire
      = .ok env) :
    c.request transport date uri args true =
      (c, (processResponse env,
        [((Request.make c.hostname c.access_id c.secret_key uri args date).sign).wire])) := by
  unfold Client.request
  rw [h1, h2] at htr ⊢
  simp [Request.send, htr]

/-- C10: `get_actual_tasks` and `get_tasks_by_status` return exactly the
value under the `tasks` key of the returned payload; when the `"ok"`
envelope has neither `data` nor `json`, they fail with a `TypeError`
(subscripting the absent payload), and when the payload lacks the
`tasks` key they propagate the lookup error — never an empty list. -/
theorem get_tasks_payload (c : Client) (a s : String)
    (h1 : c.access_id = some a) (h2 : c.secret_key = some s)
    (transport : WireRequest → Except PyErr Json) (date : String) (stv : Option String)
    (env st payload v : Json) (e : PyErr)
    (htr : transport ((Request.make c.hostname c.access_id c.secret_key
      "BumsTaskApiV01/Task/list.api" (some [("Status", "actual")]) date).sign).wire = .ok env)
    (htr2 : transport ((Request.make c.hostname c.access_id c.secret_key
      "BumsTaskApiV01/Task/list.api" (some [("Status", pyStr stv)]) date).sign).wire = .ok env)
    (hst : pyGetItem env "status" = .ok st)
    (hcode : pyGetItem st "code" = .ok (.str "ok")) :
    (env.lookup "data" = some payload → pyGetItem payload "tasks" = .ok v →
      (c.get_actual_tasks transport date).2.1 = .ok v
      ∧ (c.get_tasks_by_status transport date stv).2.1 = .ok v)
    ∧ (env.lookup "data" = none → env.lookup "json" = none →
      (c.get_actual_tasks transport date).2.1 = .error .typeError
      ∧ (c.get_tasks_by_status transport date stv).2.1 = .error .typeError)
    ∧ (env.lookup "data" = some payload → pyGetItem payload "tasks" = .error e →
      (c.get_actual_tasks transport date).2.1 = .error e
      ∧ (c.get_tasks_by_status transport date stv).2.1 = .error e) := by
  have hr1 := request_signed_eval c transport date "BumsTaskApiV01/Task/list.api"
    (some [("Status", "actual")]) a s env h1 h2 htr
  have hr2 := request_signed_eval c transport date "BumsTaskApiV01/Task/list.api"
    (some [("Status", pyStr stv)]) a s env h1 h2 htr2
  refine ⟨?_, ?_, ?_⟩
  · intro hdata htasks
    have hproc : processResponse env = .ok (some payload) := by
      unfold processResponse
      simp only [hst, hcode, jsonEqStr, beq_self_eq_true, if_true, hdata]
    constructor
    · unfold Client.get_actual_tasks
      rw [hr1, hproc]
      simp only [pyGetItemOpt, htasks]
    · unfold Client.get_tasks_by_status
      rw [hr2, hproc]
      simp only [pyGetItemOpt, htasks]
  · intro hdata hjson
    have hproc : processResponse env = .ok none := by
      unfold processResponse
      simp only [hst, hcode, jsonEqStr, beq_self_eq_true, if_true, hdata, hjson]
    constructor
    · unfold Client.get_actual_tasks
      rw [hr1, hproc]
      simp only [pyGetItemOpt]
    · unfold Client.get_tasks_by_status
      rw [hr2, hproc]
      simp only [pyGetItemOpt]
  · intro hdata htasks
    have hproc : processResponse env = .ok (some payload) := by
      unfold processResponse
      simp only [hst, hcode, jsonEqStr, beq_self_eq_true, if_true, hdata]
    constructor
    · unfold Client.get_actual_tasks
      rw [hr1, hproc]
      simp only [pyGetItemOpt, htasks]
    · unfold Client.get_tasks_by_status
      rw [hr2, hproc]
      simp only [pyGetItemOpt, htasks]

/-- A stub success envelope carrying an empty `tasks` list. -/
def envTasks : Json :=
  .obj [("status", .obj [("code", .str "ok")]), ("data", .obj [("tasks", .arr [])])]

/-- An authenticated client for concrete evaluations. -/
def cAuth : Client := ⟨"xyz.megaplan.ru", some "A", some "S"⟩

/-- Witness for C10: the spec's stub scenario, a transport answering
with `{"status":{"code":"ok"},"data":{"tasks":[]}}`. -/
theorem get_tasks_payload_witness :
    (envTasks.lookup "data" = some (Json.obj [("tasks", Json.arr [])]) →
      pyGetItem (Json.obj [("tasks", Json.arr [])]) "tasks" = .ok (.arr []) →
      (cAuth.get_actual_tasks (fun _ => .ok envTasks) "D").2.1 = .ok (.arr [])
      ∧ (cAuth.get_tasks_by_status (fun _ => .ok envTasks) "D" none).2.1 = .ok (.arr []))
    ∧ (envTasks.lookup "data" = none → envTasks.lookup "json" = none →
      (cAuth.get_actual_tasks (fun _ => .ok envTasks) "D").2.1 = .error .typeError
      ∧ (cAuth.get_tasks_by_status (fun _ => .ok envTasks) "D" none).2.1 = .error .typeError)
    ∧ (envTasks.lookup "data" = some (Json.obj [("tasks", Json.arr [])]) →
      pyGetItem (Json.obj [("tasks", Json.arr [])]) "tasks" = .error .typeError →
      (cAuth.get_actual_tasks (fun _ => .ok envTasks) "D").2.1 = .error .typeError
      ∧ (cAuth.get_tasks_by_status (fun _ => .ok envTasks) "D" none).2.1 =
        .error .typeError) :=
  get_tasks_payload cAuth "A" "S" rfl rfl (fun _ => .ok envTasks) "D" none envTasks
    (.obj [("code", .str "ok")]) (.obj [("tasks", Json.arr [])]) (.arr []) .typeError
    rfl rfl rfl rfl

/-! ## C9: state of the client across operations -/

/-- A success envelope whose payload has an `AccessId` but no
`SecretKey`: `authenticate` assigns `self.access_id` and only then
fails looking up `SecretKey`. -/
def envPartial : Json :=
  .obj [("status", .obj [("code", .str "ok")]), ("data", .obj [("AccessId", .str "A1")])]

/-- Counterexample to C9 as stated: on an authenticated client, an
`authenticate` call that *fails* (with `KeyError('SecretKey')`) has
nevertheless overwritten the access id — so the credential fields are
not written only by successful authentications, and an `Authenticated`
client does not stay on its credential pair. -/
theorem authenticate_broken_write :
    (Client.authenticate ⟨"h", some "A0", some "S0"⟩ (fun _ => .ok envPartial) "D" "l"
      "p").1.access_id = some "A1"
    ∧ (Client.authenticate ⟨"h", some "A0", some "S0"⟩ (fun _ => .ok envPartial) "D" "l"
      "p").1.secret_key = some "S0"
    ∧ (Client.authenticate ⟨"h", some "A0", some "S0"⟩ (fun _ => .ok envPartial) "D" "l"
      "p").2.1 = .error (.keyError "SecretKey") :=
  ⟨rfl, rfl, rfl⟩

/-- The generic call returns the client unchanged. -/
theorem request_fst (c : Client) (transport : WireRequest → Except PyErr Json)
    (date uri : String) (args : Option (List (String × String))) (signed : Bool) :
    (c.request transport date uri args signed).1 = c := by
  unfold Client.request
  split <;> rfl

/-- C9 (amended): the hostname is never modified by any operation; the
generic request operation and all convenience wrappers return the
client with hostname, access id and secret key unchanged; only
`authenticate` writes the credential fields (though a partially failed
`authenticate` may leave a partial write, see the counterexample). -/
theorem client_state_invariants (c : Client) (transport : WireRequest → Except PyErr Json)
    (date login password status task_id token message employee_id : String)
    (uri : String) (args : Option (List (String × String))) (signed : Bool) :
    (c.request transport date uri args signed).1 = c
    ∧ (c.get_actual_tasks transport date).1 = c
    ∧ (c.get_tasks_by_status transport date (some status)).1 = c
    ∧ (c.get_task_details transport date task_id).1 = c
    ∧ (c.get_task_comments transport date task_id).1 = c
    ∧ (c.set_reaction transport date token message).1 = c
    ∧ (c.get_employee_card transport date employee_id).1 = c
    ∧ (c.get_employee_list transport date).1 = c
    ∧ (c.authenticate transport date login password).1.hostname = c.hostname := by
  refine ⟨request_fst c transport date uri args signed, ?_, ?_,
    request_fst c transport date "BumsTaskApiV01/Task/card.api" (some [("Id", task_id)]) true,
    request_fst c transport date "BumsCommonApiV01/Comment/list.api"
      (some [("SubjectType", "task"), ("SubjectId", task_id)]) true,
    request_fst c transport date "SdfNotify/ReactionApi/do.api"
      (some [("Token", token), ("params[text]", message)]) true,
    request_fst c transport date "BumsStaffApiV01/Employee/card.api"
      (some [("Id", employee_id)]) true,
    request_fst c transport date "BumsStaffApiV01/Employee/list.api" (some []) true, ?_⟩
  · unfold Client.get_actual_tasks
    have h := request_fst c transport date "BumsTaskApiV01/Task/list.api"
      (some [("Status", "actual")]) true
    rcases hr : c.request transport date "BumsTaskApiV01/Task/list.api"
      (some [("Status", "actual")]) true with ⟨c1, res, log⟩
    rw [hr] at h
    cases res <;> simpa [hr] using h
  · unfold Client.get_tasks_by_status
    have h := request_fst c transport date "BumsTaskApiV01/Task/list.api"
      (some [("Status", pyStr (some status))]) true
    rcases hr : c.request transport date "BumsTaskApiV01/Task/list.api"
      (some [("Status", pyStr (some status))]) true with ⟨c1, res, log⟩
    rw [hr] at h
    cases res <;> simpa [hr] using h
  · unfold Client.authenticate
    have h := request_fst c transport date "BumsCommonApiV01/User/authorize.api"
      (some [("Login", login), ("Password", md5Hex password)]) false
    rcases hr : c.request transport date "BumsCommonApiV01/User/authorize.api"
      (some [("Login", login), ("Password", md5Hex password)]) false with ⟨c1, res, log⟩
    rw [hr] at h
    have hc : c1 = c := by simpa using h
    cases res with
    | error e => simp [hr, hc]
    | ok payload =>
      rcases hA : pyGetItemOpt payload "AccessId" with e | aid
      · simp [hA, hc]
      · rcases hS : pyGetItemOpt payload "SecretKey" with e | sk
        · simp [hA, hS, hc]
        · rcases hE : pyGetItemOpt payload "EmployeeId" with e | eid <;> simp [hA, hS, hE, hc]

/-! ## C8: signature sensitivity to single-field changes -/

/-- The value of a digest read as a base-256 number. -/
def digestNat (l : List Nat) : Nat := l.foldl (fun a b => a * 256 + b) 0

/-- Base-256 folding is bounded. -/
theorem foldl256_lt (l : List Nat) (hb : ∀ b ∈ l, b < 256) :
    ∀ a, l.foldl (fun a b => a * 256 + b) a < (a + 1) * 256 ^ l.length := by
  induction l with
  | nil => intro a; simp
  | cons x t ih =>
    intro a
    have hx : x < 256 := hb x (by simp)
    have h1 := ih (fun b hbt => hb b (by simp [hbt])) (a * 256 + x)
    calc List.foldl (fun a b => a * 256 + b) (a * 256 + x) t
        < (a * 256 + x + 1) * 256 ^ t.length := h1
      _ ≤ (a + 1) * 256 * 256 ^ t.length :=
          Nat.mul_le_mul_right _ (by omega)
      _ = (a + 1) * 256 ^ (x :: t).length := by
          simp [List.length_cons, pow_succ]
          ring

/-- A digest of bounded bytes reads as a number below `256 ^ length`. -/
theorem digestNat_lt (l : List Nat) (hb : ∀ b ∈ l, b < 256) :
    digestNat l < 256 ^ l.length := by
  have := foldl256_lt l hb 0
  simpa [digestNat] using this

/-- Base-256 folding is injective on equal-length bounded byte lists. -/
theorem foldl256_inj (l1 : List Nat) :
    ∀ (l2 : List Nat) (a1 a2 : Nat), l1.length = l2.length →
    (∀ b ∈ l1, b < 256) → (∀ b ∈ l2, b < 256) →
    l1.foldl (fun a b => a * 256 + b) a1 = l2.foldl (fun a b => a * 256 + b) a2 →
    a1 = a2 ∧ l1 = l2 := by
  induction l1 with
  | nil =>
    intro l2 a1 a2 hlen _ _ heq
    cases l2 with
    | nil => exact ⟨by simpa using heq, rfl⟩
    | cons => simp at hlen
  | cons x t ih =>
    intro l2 a1 a2 hlen hb1 hb2 heq
    cases l2 with
    | nil => simp at hlen
    | cons y u =>
      simp only [List.foldl_cons] at heq
      have hx : x < 256 := hb1 x (by simp)
      have hy : y < 256 := hb2 y (by simp)
      obtain ⟨hacc, ht⟩ := ih u (a1 * 256 + x) (a2 * 256 + y) (by simpa using hlen)
        (fun b hbt => hb1 b (by simp [hbt])) (fun b hbt => hb2 b (by simp [hbt])) heq
      have hae : a1 = a2 := by omega
      have hxe : x = y := by omega
      exact ⟨hae, by rw [hxe, ht]⟩

/-- Equal base-256 readings of two equally long bounded digests force
the digests to be equal. -/
theorem digest_eq_of_digestNat_eq (d1 d2 : List Nat) (h1 : ∀ b ∈ d1, b < 256)
    (h2 : ∀ b ∈ d2, b < 256) (hlen : d1.length = d2.length)
    (h : digestNat d1 = digestNat d2) : d1 = d2 :=
  (foldl256_inj d1 d2 0 0 hlen h1 h2 h).2

/-- Counterexample to C8 as universally stated: among requests sharing
every field except the uri, two distinct uris must map to the same
HMAC-SHA1 digest (infinitely many uris, finitely many digests), and
then `sign` produces the same signature.  No such collision is
exhibitable, but its existence refutes the universal claim. -/
theorem sign_collision_exists :
    ∃ r1 r2 : Request, r1.secret_key = some "k" ∧ r2.secret_key = some "k"
      ∧ r1.method = r2.method ∧ r1.content_type = r2.content_type ∧ r1.date = r2.date
      ∧ r1.uri ≠ r2.uri ∧ (r1.sign).signature = (r2.sign).signature := by
  have hf : ∀ u : String, digestNat (hmacSha1 (strBytes "k") (strBytes
      (Request.canonicalText ⟨"POST", "http", u, some "A", some "k", "ct", "dt", none,
        none⟩))) < 256 ^ 20 := by
    intro u
    have h := digestNat_lt _ (hmacSha1_lt (strBytes "k") (strBytes
      (Request.canonicalText ⟨"POST", "http", u, some "A", some "k", "ct", "dt", none, none⟩)))
    rwa [hmacSha1_length] at h
  obtain ⟨u1, u2, hne, heq⟩ := Finite.exists_ne_map_eq_of_infinite
    (fun u : String => (⟨digestNat (hmacSha1 (strBytes "k") (strBytes
      (Request.canonicalText ⟨"POST", "http", u, some "A", some "k", "ct", "dt", none,
        none⟩))), hf u⟩ : Fin (256 ^ 20)))
  refine ⟨⟨"POST", "http", u1, some "A", some "k", "ct", "dt", none, none⟩,
    ⟨"POST", "http", u2, some "A", some "k", "ct", "dt", none, none⟩,
    rfl, rfl, rfl, rfl, rfl, hne, ?_⟩
  have hdig := digest_eq_of_digestNat_eq
    (hmacSha1 (strBytes "k") (strBytes (Request.canonicalText
      ⟨"POST", "http", u1, some "A", some "k", "ct", "dt", none, none⟩)))
    (hmacSha1 (strBytes "k") (strBytes (Request.canonicalText
      ⟨"POST", "http", u2, some "A", some "k", "ct", "dt", none, none⟩)))
    (hmacSha1_lt _ _) (hmacSha1_lt _ _)
    (by rw [hmacSha1_length, hmacSha1_length]) (congrArg Fin.val heq)
  exact congrArg (fun d => some (b64encode (strBytes (bytesToHex d)))) hdig

/-- The lowercase hex digit map is injective on digit values. -/
theorem hexDigit_inj : ∀ m n : Fin 16, hexDigitChar m = hexDigitChar n → m = n := by decide

/-- `byteHex` is injective on bytes. -/
theorem byteHex_inj (m n : Nat) (hm : m < 256) (hn : n < 256) (h : byteHex m = byteHex n) :
    m = n := by
  simp only [byteHex, List.cons.injEq, and_true] at h
  obtain ⟨h1, h2⟩ := h
  have e1 : m / 16 = n / 16 :=
    congrArg Fin.val (hexDigit_inj ⟨m / 16, by omega⟩ ⟨n / 16, by omega⟩ h1)
  have e2 : m % 16 = n % 16 :=
    congrArg Fin.val (hexDigit_inj ⟨m % 16, by omega⟩ ⟨n % 16, by omega⟩ h2)
  omega

/-- The character data of `bytesToHex` on a cons. -/
theorem bytesToHex_data_cons (a : Nat) (t : List Nat) :
    (bytesToHex (a :: t)).data = byteHex a ++ (bytesToHex t).data := rfl

/-- A hex rendering has two characters per byte. -/
theorem bytesToHex_data_length (l : List Nat) : (bytesToHex l).data.length = 2 * l.length := by
  induction l with
  | nil => rfl
  | cons a t ih =>
    rw [bytesToHex_data_cons]
    simp only [List.length_append, ih, byteHex, List.length_cons, List.length_nil,
      List.length_cons]
    omega

/-- Hex rendering is injective on equally long bounded byte lists. -/
theorem bytesToHex_inj (l1 : List Nat) :
    ∀ (l2 : List Nat), l1.length = l2.length → (∀ b ∈ l1, b < 256) → (∀ b ∈ l2, b < 256) →
    bytesToHex l1 = bytesToHex l2 → l1 = l2 := by
  induction l1 with
  | nil =>
    intro l2 hlen _ _ _
    cases l2 with
    | nil => rfl
    | cons => simp at hlen
  | cons a t ih =>
    intro l2 hlen hb1 hb2 heq
    cases l2 with
    | nil => simp at hlen
    | cons b u =>
      have hdata : byteHex a ++ (bytesToHex t).data = byteHex b ++ (bytesToHex u).data := by
        rw [← bytesToHex_data_cons, ← bytesToHex_data_cons, heq]
      obtain ⟨hh, htail⟩ := List.append_inj hdata (by simp [byteHex])
      have ha : a = b := byteHex_inj a b (hb1 a (by simp)) (hb2 b (by simp)) hh
      have ht : t = u := ih u (by simpa using hlen) (fun x hx => hb1 x (by simp [hx]))
        (fun x hx => hb2 x (by simp [hx])) (String.ext htail)
      rw [ha, ht]

/-- `Char.toNat` is injective (character order is the code-point order). -/
theorem char_toNat_injective : Function.Injective Char.toNat :=
  StrictMono.injective fun _ _ h => h

/-- `strBytes` is injective. -/
theorem strBytes_inj (s1 s2 : String) (h : strBytes s1 = strBytes s2) : s1 = s2 :=
  String.ext (List.map_injective_iff.mpr char_toNat_injective h)

/-- The base64 character map is injective on 6-bit values. -/
theorem b64Char_inj : ∀ m n : Fin 64, b64Char m = b64Char n → m = n := by decide

/-- Base64 encoding is injective on equally long bounded byte lists. -/
theorem b64core_inj (l1 : List Nat) :
    ∀ (l2 : List Nat), l1.length = l2.length → (∀ b ∈ l1, b < 256) → (∀ b ∈ l2, b < 256) →
    b64encodeCore l1 = b64encodeCore l2 → l1 = l2 := by
  induction l1 using b64encodeCore.induct with
  | case1 =>
    intro l2 hlen _ _ _
    cases l2 with
    | nil => rfl
    | cons => simp at hlen
  | case2 b1 =>
    intro l2 hlen hb1 hb2 heq
    obtain ⟨c1, rfl⟩ : ∃ c, l2 = [c] := by
      cases l2 with
      | nil => simp at hlen
      | cons c t =>
        cases t with
        | nil => exact ⟨c, rfl⟩
        | cons d u => simp at hlen
    simp only [b64encodeCore, List.cons.injEq, and_true] at heq
    have h1 : b1 / 4 = c1 / 4 :=
      congrArg Fin.val (b64Char_inj ⟨b1 / 4, by have := hb1 b1 (by simp); omega⟩
        ⟨c1 / 4, by have := hb2 c1 (by simp); omega⟩ heq.1)
    have h2 : b1 % 4 * 16 = c1 % 4 * 16 :=
      congrArg Fin.val (b64Char_inj ⟨b1 % 4 * 16, by omega⟩ ⟨c1 % 4 * 16, by omega⟩ heq.2)
    have : b1 = c1 := by omega
    rw [this]
  | case3 b1 b2 =>
    intro l2 hlen hb1 hb2 heq
    obtain ⟨c1, c2, rfl⟩ : ∃ c d, l2 = [c, d] := by
      cases l2 with
      | nil => simp at hlen
      | cons c t =>
        cases t with
        | nil => simp at hlen
        | cons d u =>
          cases u with
          | nil => exact ⟨c, d, rfl⟩
          | cons => simp at hlen
    simp only [b64encodeCore, List.cons.injEq, and_true] at heq
    have hc1 : b1 < 256 := hb1 b1 (by simp)
    have hc2 : b2 < 256 := hb1 b2 (by simp)
    have hd1 : c1 < 256 := hb2 c1 (by simp)
    have hd2 : c2 < 256 := hb2 c2 (by simp)
    have h1 : b1 / 4 = c1 / 4 :=
      congrArg Fin.val (b64Char_inj ⟨b1 / 4, by omega⟩ ⟨c1 / 4, by omega⟩ heq.1)
    have h2 : b1 % 4 * 16 + b2 / 16 = c1 % 4 * 16 + c2 / 16 :=
      congrArg Fin.val (b64Char_inj ⟨b1 % 4 * 16 + b2 / 16, by omega⟩
        ⟨c1 % 4 * 16 + c2 / 16, by omega⟩ heq.2.1)
    have h3 : b2 % 16 * 4 = c2 % 16 * 4 :=
      congrArg Fin.val (b64Char_inj ⟨b2 % 16 * 4, by omega⟩ ⟨c2 % 16 * 4, by omega⟩ heq.2.2)
    have e1 : b1 = c1 := by omega
    have e2 : b2 = c2 := by omega
    rw [e1, e2]
  | case4 b1 b2 b3 rest ih =>
    intro l2 hlen hb1 hb2 heq
    obtain ⟨c1, c2, c3, r2, rfl⟩ : ∃ c d e r, l2 = c :: d :: e :: r := by
      cases l2 with
      | nil => simp at hlen
      | cons c t =>
        cases t with
        | nil => simp at hlen
        | cons d u =>
          cases u with
          | nil => simp at hlen
          | cons e r => exact ⟨c, d, e, r, rfl⟩
    simp only [b64encodeCore, List.cons.injEq] at heq
    obtain ⟨h1, h2, h3, h4, hrest⟩ := heq
    have hc1 : b1 < 256 := hb1 b1 (by simp)
    have hc2 : b2 < 256 := hb1 b2 (by simp)
    have hc3 : b3 < 256 := hb1 b3 (by simp)
    have hd1 : c1 < 256 := hb2 c1 (by simp)
    have hd2 : c2 < 256 := hb2 c2 (by simp)
    have hd3 : c3 < 256 := hb2 c3 (by simp)
    have e1 : b1 / 4 = c1 / 4 :=
      congrArg Fin.val (b64Char_inj ⟨b1 / 4, by omega⟩ ⟨c1 / 4, by omega⟩ h1)
    have e2 : b1 % 4 * 16 + b2 / 16 = c1 % 4 * 16 + c2 / 16 :=
      congrArg Fin.val (b64Char_inj ⟨b1 % 4 * 16 + b2 / 16, by omega⟩
        ⟨c1 % 4 * 16 + c2 / 16, by omega⟩ h2)
    have e3 : b2 % 16 * 4 + b3 / 64 = c2 % 16 * 4 + c3 / 64 :=
      congrArg Fin.val (b64Char_inj ⟨b2 % 16 * 4 + b3 / 64, by omega⟩
        ⟨c2 % 16 * 4 + c3 / 64, by omega⟩ h3)
    have e4 : b3 % 64 = c3 % 64 :=
      congrArg Fin.val (b64Char_inj ⟨b3 % 64, by omega⟩ ⟨c3 % 64, by omega⟩ h4)
    have f1 : b1 = c1 := by omega
    have f2 : b2 = c2 := by omega
    have f3 : b3 = c3 := by omega
    have frest : rest = r2 := ih r2 (by simpa using hlen)
      (fun x hx => hb1 x (by simp [hx])) (fun x hx => hb2 x (by simp [hx])) hrest
    rw [f1, f2, f3, frest]

/-- Every character of the lowercase hex alphabet is an ASCII byte. -/
theorem hexAlphabet_toNat : ∀ c ∈ hexLowerAlphabet, c.toNat < 256 := by decide

/-- The bytes of a hex rendering are ASCII bytes. -/
theorem strBytes_bytesToHex_lt (d : List Nat) (hd : ∀ b ∈ d, b < 256) :
    ∀ x ∈ strBytes (bytesToHex d), x < 256 := by
  intro x hx
  simp only [strBytes, List.mem_map] at hx
  obtain ⟨c, hc, rfl⟩ := hx
  exact hexAlphabet_toNat c (mem_bytesToHex d hd c hc)

/-- The character data of the canonical text, with the two newlines of
the blank second field and the three separating newlines in place. -/
theorem canonicalText_data (r : Request) :
    (r.canonicalText).data =
      r.method.data ++ '\n' :: '\n' ::
        (r.content_type.data ++ '\n' :: (r.date.data ++ '\n' :: r.uri.data)) := by
  rw [Request.canonicalText_eq]
  simp [String.data_append, List.append_assoc]

/-- C8 (amended): two requests sharing the secret key that differ in
exactly one of method, contentType, date, uri have distinct canonical
texts; their signatures differ whenever HMAC-SHA1 distinguishes the two
texts (the hex and base64 stages lose nothing), though an HMAC collision
on the two distinct texts — which exists by counting but is not
exhibitable — would give equal signatures. -/
theorem sign_field_sensitivity (r1 r2 : Request) (k : String)
    (h1 : r1.secret_key = some k) (h2 : r2.secret_key = some k)
    (hdiff :
      (r1.method ≠ r2.method ∧ r1.content_type = r2.content_type ∧ r1.date = r2.date ∧
        r1.uri = r2.uri)
      ∨ (r1.method = r2.method ∧ r1.content_type ≠ r2.content_type ∧ r1.date = r2.date ∧
        r1.uri = r2.uri)
      ∨ (r1.method = r2.method ∧ r1.content_type = r2.content_type ∧ r1.date ≠ r2.date ∧
        r1.uri = r2.uri)
      ∨ (r1.method = r2.method ∧ r1.content_type = r2.content_type ∧ r1.date = r2.date ∧
        r1.uri ≠ r2.uri)) :
    r1.canonicalText ≠ r2.canonicalText
    ∧ (hmacSha1 (strBytes k) (strBytes r1.canonicalText) ≠
        hmacSha1 (strBytes k) (strBytes r2.canonicalText) →
      (r1.sign).signature ≠ (r2.sign).signature) := by
  constructor
  · intro habs
    have hd := congrArg String.data habs
    rw [canonicalText_data, canonicalText_data] at hd
    rcases hdiff with ⟨hm, hct, hdt, hu⟩ | ⟨hm, hct, hdt, hu⟩ | ⟨hm, hct, hdt, hu⟩ |
      ⟨hm, hct, hdt, hu⟩
    · rw [hct, hdt, hu] at hd
      exact hm (String.ext (List.append_cancel_right hd))
    · rw [hm, hdt, hu] at hd
      have h' := List.append_cancel_left hd
      simp only [List.cons.injEq, true_and] at h'
      exact hct (String.ext (List.append_cancel_right h'))
    · rw [hm, hct, hu] at hd
      have h' := List.append_cancel_left hd
      simp only [List.cons.injEq, true_and] at h'
      have h'' := List.append_cancel_left h'
      simp only [List.cons.injEq, true_and] at h''
      exact hdt (String.ext (List.append_cancel_right h''))
    · rw [hm, hct, hdt] at hd
      have h' := List.append_cancel_left hd
      simp only [List.cons.injEq, true_and] at h'
      have h'' := List.append_cancel_left h'
      simp only [List.cons.injEq, true_and] at h''
      have h3 := List.append_cancel_left h''
      simp only [List.cons.injEq, true_and] at h3
      exact hu (String.ext h3)
  · intro hdig habs
    have e1 : (r1.sign).signature = some (b64encode (strBytes (bytesToHex
        (hmacSha1 (strBytes k) (strBytes r1.canonicalText))))) := by
      show some (b64encode (strBytes (hmacSha1Hex (pyStr r1.secret_key) r1.canonicalText))) = _
      rw [h1]
      rfl
    have e2 : (r2.sign).signature = some (b64encode (strBytes (bytesToHex
        (hmacSha1 (strBytes k) (strBytes r2.canonicalText))))) := by
      show some (b64encode (strBytes (hmacSha1Hex (pyStr r2.secret_key) r2.canonicalText))) = _
      rw [h2]
      rfl
    rw [e1, e2] at habs
    have hb := Option.some.inj habs
    have hbc : b64encodeCore (strBytes (bytesToHex
        (hmacSha1 (strBytes k) (strBytes r1.canonicalText)))) = b64encodeCore (strBytes
        (bytesToHex (hmacSha1 (strBytes k) (strBytes r2.canonicalText)))) :=
      congrArg String.data hb
    have hlen2 : ∀ d : List Nat, (strBytes (bytesToHex d)).length = 2 * d.length := by
      intro d
      rw [strBytes, List.length_map, bytesToHex_data_length]
    have hlen : (strBytes (bytesToHex (hmacSha1 (strBytes k)
        (strBytes r1.canonicalText)))).length = (strBytes (bytesToHex (hmacSha1 (strBytes k)
        (strBytes r2.canonicalText)))).length := by
      rw [hlen2, hlen2, hmacSha1_length, hmacSha1_length]
    have hhexbytes := b64core_inj _ _ hlen
      (strBytes_bytesToHex_lt _ (hmacSha1_lt _ _)) (strBytes_bytesToHex_lt _ (hmacSha1_lt _ _))
      hbc
    have hhex := strBytes_inj _ _ hhexbytes
    have hdg := bytesToHex_inj _ _ (by rw [hmacSha1_length, hmacSha1_length])
      (hmacSha1_lt _ _) (hmacSha1_lt _ _) hhex
    exact hdig hdg

/-- Witness for the amended C8 at two concrete requests differing only
in the date. -/
theorem sign_field_sensitivity_witness :
    (Request.canonicalText ⟨"POST", "http", "h/u", some "A", some "k", "ct", "d1", none, none⟩ ≠
      Request.canonicalText ⟨"POST", "http", "h/u", some "A", some "k", "ct", "d2", none, none⟩)
    ∧ (hmacSha1 (strBytes "k") (strBytes (Request.canonicalText
        ⟨"POST", "http", "h/u", some "A", some "k", "ct", "d1", none, none⟩)) ≠
      hmacSha1 (strBytes "k") (strBytes (Request.canonicalText
        ⟨"POST", "http", "h/u", some "A", some "k", "ct", "d2", none, none⟩)) →
      (Request.sign ⟨"POST", "http", "h/u", some "A", some "k", "ct", "d1", none,
        none⟩).signature ≠
      (Request.sign ⟨"POST", "http", "h/u", some "A", some "k", "ct", "d2", none,
        none⟩).signature) :=
  sign_field_sensitivity
    ⟨"POST", "http", "h/u", some "A", some "k", "ct", "d1", none, none⟩
    ⟨"POST", "http", "h/u", some "A", some "k", "ct", "d2", none, none⟩ "k" rfl rfl
    (Or.inr (Or.inr (Or.inl ⟨rfl, rfl, by decide, rfl⟩)))
